import Mathlib

/-!
Verification development for the resilient multi-source price-acquisition
subsystem (gold_scraper).  Each Python component relevant to the checked
properties is shallowly embedded as executable Lean definitions:

* `src/gold_scraper/fallback_manager.py`  — `FallbackManager`, `DataSourceWrapper`
* `src/gold_scraper/data_validator.py`    — `DataValidator`
* `src/gold_scraper/parsers/base_parser.py` — `BaseParser` cleaning helpers
* `src/gold_scraper/parsers/cngold_parser.py`, `sina_parser.py` — dedup/sort

Machine floats are modelled as rationals, timestamps as rational "minutes",
and fallible fetchers as `Option (Except String String)` (absent callable /
raising callable / returning callable).
-/

namespace GoldScraper

/-! ## fallback_manager.py -/

/-- `DataSourceType` enum. -/
inductive DataSourceType where
  | api
  | scraper
  deriving DecidableEq, Repr

/-- `DataSourceStatus` enum. -/
inductive DataSourceStatus where
  | healthy
  | degraded
  | failed
  | unknown
  deriving DecidableEq, Repr

/-- State held by `FallbackManager.__init__`: per-source status, failure
counter and last-success time (the config dict is constant, embedded as
`failure_threshold` below). -/
structure FallbackManager where
  apiStatus : DataSourceStatus
  scraperStatus : DataSourceStatus
  apiFailures : Nat
  scraperFailures : Nat
  apiLastSuccess : Option ℚ
  scraperLastSuccess : Option ℚ
  deriving DecidableEq, Repr

/-- The initial state built by `FallbackManager.__init__`. -/
def initFallbackManager : FallbackManager :=
  ⟨.unknown, .unknown, 0, 0, none, none⟩

/-- `self.source_status[t]`. -/
def FallbackManager.status (m : FallbackManager) : DataSourceType → DataSourceStatus
  | .api => m.apiStatus
  | .scraper => m.scraperStatus

/-- `self.failure_counts[t]`. -/
def FallbackManager.failures (m : FallbackManager) : DataSourceType → Nat
  | .api => m.apiFailures
  | .scraper => m.scraperFailures

/-- `self.config[f"{source_type.value}_failure_threshold"]`: 3 for API,
5 for the scraper. -/
def failure_threshold : DataSourceType → Nat
  | .api => 3
  | .scraper => 5

/-- `FallbackManager.get_preferred_source`. -/
def get_preferred_source (m : FallbackManager) : DataSourceType :=
  if m.apiStatus = .healthy ∨ m.apiStatus = .unknown then .api
  else if m.scraperStatus = .healthy ∨ m.scraperStatus = .unknown then .scraper
  else .api

/-- `FallbackManager.record_success` (`now` stands for `datetime.now()`). -/
def record_success (m : FallbackManager) (t : DataSourceType) (now : ℚ) : FallbackManager :=
  match t with
  | .api => { m with apiStatus := .healthy, apiFailures := 0, apiLastSuccess := some now }
  | .scraper =>
    { m with scraperStatus := .healthy, scraperFailures := 0, scraperLastSuccess := some now }

/-- `FallbackManager.record_failure` (the error string is only logged). -/
def record_failure (m : FallbackManager) (t : DataSourceType) : FallbackManager :=
  let n := m.failures t + 1
  let st : DataSourceStatus := if failure_threshold t ≤ n then .failed else .degraded
  match t with
  | .api => { m with apiFailures := n, apiStatus := st }
  | .scraper => { m with scraperFailures := n, scraperStatus := st }

/-- `FallbackManager.should_fallback`. -/
def should_fallback (m : FallbackManager) (current : DataSourceType) : Bool :=
  match current with
  | .api => m.apiStatus = .failed
  | .scraper => false

/-- `FallbackManager.get_fallback_source`. -/
def get_fallback_source (m : FallbackManager) (current : DataSourceType) :
    Option DataSourceType :=
  match current with
  | .api => if m.scraperStatus ≠ .failed then some .scraper else none
  | .scraper => none

/-- `FallbackManager.reset_source_status`. -/
def reset_source_status (m : FallbackManager) (t : DataSourceType) : FallbackManager :=
  match t with
  | .api => { m with apiStatus := .unknown, apiFailures := 0 }
  | .scraper => { m with scraperStatus := .unknown, scraperFailures := 0 }

/-- One externally observable mutation of the manager state. -/
inductive FMEvent where
  | success (t : DataSourceType) (now : ℚ)
  | failure (t : DataSourceType)
  | reset (t : DataSourceType)
  deriving Repr

/-- Apply one event to the manager state. -/
def applyEvent (m : FallbackManager) : FMEvent → FallbackManager
  | .success t now => record_success m t now
  | .failure t => record_failure m t
  | .reset t => reset_source_status m t

/-- The state reached from `__init__` after a sequence of events: exactly the
reachable states of a `FallbackManager` instance. -/
def runEvents (es : List FMEvent) : FallbackManager :=
  es.foldl applyEvent initFallbackManager

/-! ### `DataSourceWrapper.fetch_data_with_fallback`

A fetcher argument is `none` when the Python callable argument is `None`,
`some (.ok d)` when awaiting it returns data `d`, and `some (.error e)` when
awaiting it raises an exception rendered as `e`.  The function returns the
`(data, source, used_fallback)` triple together with the updated manager
state. -/

/-- `DataSourceWrapper.fetch_data_with_fallback`. -/
def fetch_data_with_fallback (now : ℚ) (m : FallbackManager)
    (api_fetcher scraper_fetcher : Option (Except String String)) :
    (Option String × String × Bool) × FallbackManager :=
  match get_preferred_source m, api_fetcher, scraper_fetcher with
  | .api, some (.ok d), _ => ((some d, "api", false), record_success m .api now)
  | .api, some (.error _), sf =>
    let m1 := record_failure m .api
    if should_fallback m1 .api ∧ get_fallback_source m1 .api = some .scraper then
      match sf with
      | some (.ok d) => ((some d, "scraper", true), record_success m1 .scraper now)
      | some (.error _) => ((none, "none", true), record_failure m1 .scraper)
      | none => ((none, "none", false), m1)
    else ((none, "none", false), m1)
  | .api, none, _ => ((none, "none", false), m)
  | .scraper, _, some (.ok d) => ((some d, "scraper", false), record_success m .scraper now)
  | .scraper, _, some (.error _) => ((none, "none", false), record_failure m .scraper)
  | .scraper, _, none => ((none, "none", false), m)

/-! ## data_validator.py

A payload is modelled after parsing: `status` is the `"status"` value when the
key is present (values are strings in every call site), `timestamp` is `none`
when the key is absent, `some none` when present but not parseable by
`datetime.fromisoformat`, and `some (some t)` when it parses to the instant
`t` (in minutes); `hasSource` records presence of the `"source"` key and
`items` is `none` when the `"items"` key is absent.  Item fields follow the
same convention (`price = some none`: present but `float()` raises). -/

/-- Python `str.strip()`: drop leading and trailing whitespace (structural,
so that concrete inputs evaluate in the kernel). -/
def pyStrip (s : String) : String :=
  String.mk ((s.data.dropWhile Char.isWhitespace).reverse.dropWhile Char.isWhitespace).reverse

/-- One element of `data["items"]`. -/
structure ValItem where
  symbol : Option String
  price : Option (Option ℚ)
  hasTimestamp : Bool
  deriving DecidableEq, Repr

/-- A parsed payload handed to `DataValidator.validate_gold_data`. -/
structure GoldPayload where
  status : Option String
  timestamp : Option (Option ℚ)
  hasSource : Bool
  items : Option (List ValItem)
  deriving DecidableEq, Repr

/-- `ValidationResult` (issues/warnings are tracked by how many entries the
code appends to each list; `metadata` only echoes inputs and wall-clock
logging data). -/
structure ValidationResult where
  is_valid : Bool
  score : ℚ
  issues : Nat
  warnings : Nat
  deriving DecidableEq, Repr

/-- `DataValidator._validate_item`: returns the item score together with the
numbers of issue and warning entries appended. -/
def validate_item (it : ValItem) : ℚ × Nat × Nat :=
  let s1 : ℚ × Nat := if it.price.isNone then (100 - 30, 1) else (100, 0)
  let s2 : ℚ × Nat := if it.symbol.isNone then (s1.1 - 30, s1.2 + 1) else s1
  let s3 : ℚ × Nat := if it.hasTimestamp then s2 else (s2.1 - 30, s2.2 + 1)
  let s4 : ℚ × Nat × Nat :=
    match it.price with
    | none => (s3.1, s3.2, 0)
    | some none => (s3.1 - 25, s3.2 + 1, 0)
    | some (some q) => if 50 ≤ q ∧ q ≤ 2000 then (s3.1, s3.2, 0) else (s3.1 - 20, s3.2, 1)
  match it.symbol with
  | none => s4
  | some sym => if pyStrip sym = "" then (s4.1 - 10, s4.2.1, s4.2.2 + 1) else s4

/-- `DataValidator._validate_content`. -/
def validate_content (items : List ValItem) : ℚ × Nat × Nat :=
  let n := items.length
  let base : ℚ × Nat × Nat :=
    if n < 1 then (100 - 30, 1, 0)
    else if 100 < n then (100 - 10, 0, 1)
    else (100, 0, 0)
  let itemResults := items.map validate_item
  let acc : ℚ × Nat × Nat :=
    (base.1, base.2.1 + (itemResults.map (fun r => r.2.1)).sum,
     base.2.2 + (itemResults.map (fun r => r.2.2)).sum)
  let valid_items := (itemResults.filter (fun r => (60 : ℚ) ≤ r.1)).length
  if 0 < n then
    let valid_fraction : ℚ := (valid_items : ℚ) / (n : ℚ)
    if valid_fraction < 1/2 then (acc.1 - 40, acc.2.1 + 1, acc.2.2)
    else if valid_fraction < 4/5 then (acc.1 - 15, acc.2.1, acc.2.2 + 1)
    else acc
  else acc

/-- `DataValidator._validate_structure`. -/
def validate_structure (p : GoldPayload) : ℚ × Nat × Nat :=
  let s1 : ℚ × Nat × Nat :=
    match p.status with
    | none => (100 - 20, 1, 0)
    | some st => if st ≠ "success" then (100 - 10, 0, 1) else (100, 0, 0)
  let s2 : ℚ × Nat × Nat :=
    if p.timestamp.isNone then (s1.1 - 5, s1.2.1, s1.2.2 + 1) else s1
  if p.hasSource then s2 else (s2.1 - 5, s2.2.1, s2.2.2 + 1)

/-- `DataValidator._validate_timeliness` (`now` stands for
`datetime.now()`, in minutes; an unparseable timestamp raises inside the
`try`, landing in the `-10` warning branch). -/
def validate_timeliness (now : ℚ) (p : GoldPayload) : ℚ × Nat × Nat :=
  match p.timestamp with
  | none => (100, 0, 0)
  | some none => (100 - 10, 0, 1)
  | some (some t) =>
    let age := now - t
    if 60 < age then (100 - min 30 (age - 60), 0, 1) else (100, 0, 0)

/-- The parseable item prices of a payload (the inner collection loop of
`_validate_consistency`). -/
def itemPrices (items : List ValItem) : List ℚ :=
  items.filterMap (fun it => it.price.bind id)

/-- `max(prices)` over a nonempty list (0 as a dummy for `[]`). -/
def listMax : List ℚ → ℚ
  | [] => 0
  | a :: t => t.foldl max a

/-- `min(prices)` over a nonempty list (0 as a dummy for `[]`). -/
def listMin : List ℚ → ℚ
  | [] => 0
  | a :: t => t.foldl min a

/-- `DataValidator._validate_consistency`. -/
def validate_consistency (p : GoldPayload) : ℚ × Nat × Nat :=
  match p.items with
  | none => (100, 0, 0)
  | some items =>
    if items.length < 2 then (100, 0, 0)
    else
      let prices := itemPrices items
      if 2 ≤ prices.length then
        if 50 < listMax prices - listMin prices then (100 - 15, 0, 1) else (100, 0, 0)
      else (100, 0, 0)

/-- The `(score, issues, warnings)` accumulation of
`DataValidator.validate_gold_data` (payload already parsed, so the
JSON-decode-failure early return does not arise). -/
def validate_scores (now : ℚ) (p : GoldPayload) : ℚ × Nat × Nat :=
  let st := validate_structure p
  let score1 := min (100 : ℚ) st.1
  let c : ℚ × Nat × Nat :=
    match p.items with
    | some items =>
      let ct := validate_content items
      (min score1 ct.1, st.2.1 + ct.2.1, st.2.2 + ct.2.2)
    | none => (score1 - 30, st.2.1 + 1, st.2.2)
  let tl := validate_timeliness now p
  let score3 := min c.1 tl.1
  let cs := validate_consistency p
  (min score3 cs.1, c.2.1 + cs.2.1 + tl.2.1, c.2.2 + tl.2.2 + cs.2.2)

/-- `DataValidator.validate_gold_data`. -/
def validate_gold_data (now : ℚ) (p : GoldPayload) : ValidationResult :=
  let r := validate_scores now p
  ⟨r.2.1 == 0 && decide ((60 : ℚ) ≤ r.1), r.1, r.2.1, r.2.2⟩

/-- The final score described by the spec sentence "final score = minimum
across checks": the minimum of the four per-check scores (the content check
applied to the payload's item list, `[]` when the key is absent).  Stated
from the spec's words, to be compared with `validate_gold_data`. -/
def spec_min_score (now : ℚ) (p : GoldPayload) : ℚ :=
  min (min (min (validate_structure p).1 (validate_content (p.items.getD [])).1)
    (validate_timeliness now p).1) (validate_consistency p).1

/-! ### `DataValidator.compare_sources` -/

/-- `prices[symbol] = price` on a Python dict modelled as an association
list: overwrite in place when the key exists, else append. -/
def insertPrice (m : List (String × ℚ)) (k : String) (v : ℚ) : List (String × ℚ) :=
  if m.any (fun e => e.1 = k) then m.map (fun e => if e.1 = k then (k, v) else e)
  else m ++ [(k, v)]

/-- `DataValidator._extract_prices` (an item contributes when its
`"symbol"` key is present and `float(item["price"])` succeeds). -/
def extract_prices (p : GoldPayload) : List (String × ℚ) :=
  (p.items.getD []).foldl
    (fun acc it =>
      match it.symbol, it.price with
      | some s, some (some q) => insertPrice acc s q
      | _, _ => acc)
    []

/-- Dict lookup `m[k]` (0 as a dummy for a missing key; only used on keys
known to be present). -/
def lookupPrice (m : List (String × ℚ)) (k : String) : ℚ :=
  ((m.find? (fun e => e.1 = k)).map Prod.snd).getD 0

/-- `set(api_prices.keys()) & set(scraper_prices.keys())`, enumerated in the
first dict's key order (each key occurs once per dict). -/
def commonSymbols (a b : List (String × ℚ)) : List String :=
  (a.map Prod.fst).filter (fun s => b.any (fun e => e.1 = s))

/-- The `price_diffs` list collected by `compare_sources`. -/
def priceDiffs (a b : List (String × ℚ)) : List ℚ :=
  (commonSymbols a b).map (fun s => |lookupPrice a s - lookupPrice b s|)

/-- Result of `compare_sources`: the `differences` list is split into the
item-count entry (a flag, its text is determined by the two counts) and the
per-symbol price-discrepancy entries (each determined by its symbol). -/
structure ComparisonResult where
  api_validation : ValidationResult
  scraper_validation : ValidationResult
  consistency_score : ℚ
  count_difference : Bool
  price_discrepancies : List String
  deriving DecidableEq, Repr

/-- `DataValidator.compare_sources`. -/
def compare_sources (now : ℚ) (api_data scraper_data : GoldPayload) : ComparisonResult :=
  let pa := extract_prices api_data
  let pb := extract_prices scraper_data
  let common := commonSymbols pa pb
  let diffs := priceDiffs pa pb
  let score : ℚ :=
    if common ≠ [] then
      if diffs ≠ [] then max 0 (100 - diffs.sum / (diffs.length : ℚ) * 10) else 100
    else 0
  { api_validation := validate_gold_data now api_data
    scraper_validation := validate_gold_data now scraper_data
    consistency_score := score
    count_difference :=
      5 < |((api_data.items.getD []).length : ℤ) - ((scraper_data.items.getD []).length : ℤ)|
    price_discrepancies := common.filter (fun s => 5 < |lookupPrice pa s - lookupPrice pb s|) }

/-! ## parsers/base_parser.py -/

/-- `GoldPriceData` dataclass. -/
structure GoldPriceData where
  source : String
  symbol : String
  price : ℚ
  change : ℚ
  change_percent : String
  timestamp : String
  currency : String
  volume : Option String
  high : Option ℚ
  low : Option ℚ
  open_price : Option ℚ
  buy_price : Option ℚ
  sell_price : Option ℚ
  deriving DecidableEq, Repr

/-- `self.invalid_values` (the `None` entry can never equal a string). -/
def invalid_values : List String := ["--", "N/A", "", "null", "undefined"]

/-- After `str(text).strip()` and `re.sub(r'[￥$¥,，\s]', '', ...)`: the
characters of the text with currency signs, separators and whitespace
removed. -/
def stripCurrency (s : String) : List Char :=
  (pyStrip s).data.filter
    (fun c => ¬ (c = '￥' ∨ c = '$' ∨ c = '¥' ∨ c = ',' ∨ c = '，' ∨ c.isWhitespace))

/-- The maximal match of `\d+\.?\d*` starting at the head of `l` (the head is
assumed to be a digit): the digit run, then an optional dot with the
following digit run. -/
def numberAt (l : List Char) : List Char :=
  let ds := l.takeWhile Char.isDigit
  match l.dropWhile Char.isDigit with
  | '.' :: r => ds ++ '.' :: r.takeWhile Char.isDigit
  | _ => ds

/-- `re.search(r'(\d+\.?\d*)', ...)`: leftmost match. -/
def matchNumber : List Char → Option (List Char)
  | [] => none
  | c :: t => if c.isDigit then some (numberAt (c :: t)) else matchNumber t

/-- Value of a digit run read in base 10. -/
def digitsToNat (l : List Char) : Nat :=
  l.foldl (fun acc c => acc * 10 + (c.toNat - '0'.toNat)) 0

/-- `float(...)` on a string matching `\d+\.?\d*`. -/
def parseFloat (l : List Char) : ℚ :=
  let intPart := l.takeWhile Char.isDigit
  let frac :=
    match l.dropWhile Char.isDigit with
    | '.' :: r => r
    | _ => []
  (digitsToNat intPart : ℚ) + (digitsToNat frac : ℚ) / ((10 : ℚ) ^ frac.length)

/-- `self.price_range` from `BaseParser.__init__`. -/
def price_range : ℚ × ℚ := (100, 10000)

/-- `BaseParser.clean_price_text`. -/
def clean_price_text (text : String) : ℚ :=
  if text = "" ∨ pyStrip text ∈ invalid_values then 0
  else
    match matchNumber (stripCurrency text) with
    | none => 0
    | some l =>
      let price := parseFloat l
      if price_range.1 ≤ price ∧ price ≤ price_range.2 then price else 0

/-- Try `[+-]?\d+\.?\d*` anchored at the head of `l` (the optional sign is
taken only when a digit follows, matching the backtracking of `re`). -/
def signedNumberAt : List Char → Option (List Char)
  | [] => none
  | c :: t =>
    if c = '+' ∨ c = '-' then
      match t with
      | d :: _ => if d.isDigit then some (c :: numberAt t) else none
      | [] => none
    else if c.isDigit then some (numberAt (c :: t))
    else none

/-- `re.search(r'([+-]?\d+\.?\d*)', ...)`: leftmost match. -/
def matchSigned : List Char → Option (List Char)
  | [] => none
  | c :: t =>
    match signedNumberAt (c :: t) with
    | some r => some r
    | none => matchSigned t

/-- `float(...)` on a string matching `[+-]?\d+\.?\d*`. -/
def parseSigned (l : List Char) : ℚ :=
  match l with
  | '-' :: r => -(parseFloat r)
  | '+' :: r => parseFloat r
  | _ => parseFloat l

/-- Try `\d+\.?\d*%` anchored at the head of `l`, returning the group
(without the percent sign); regex backtracking only succeeds when the
percent sign directly follows the maximal numeric match. -/
def percentDigitsAt (l : List Char) : Option (List Char) :=
  let ds := l.takeWhile Char.isDigit
  if ds.isEmpty then none
  else
    match l.dropWhile Char.isDigit with
    | '%' :: _ => some ds
    | '.' :: r =>
      match r.dropWhile Char.isDigit with
      | '%' :: _ => some (ds ++ '.' :: r.takeWhile Char.isDigit)
      | _ => none
    | _ => none

/-- Try `[+-]?\d+\.?\d*%` anchored at the head of `l`. -/
def percentAt : List Char → Option (List Char)
  | [] => none
  | c :: t =>
    if c = '+' ∨ c = '-' then (percentDigitsAt t).map (fun m => c :: m)
    else percentDigitsAt (c :: t)

/-- `re.search(r'([+-]?\d+\.?\d*)%', ...)`: leftmost match. -/
def matchPercent : List Char → Option (List Char)
  | [] => none
  | c :: t =>
    match percentAt (c :: t) with
    | some r => some r
    | none => matchPercent t

/-- Round to the nearest integer, ties to even (the rounding of `format`). -/
def roundHalfEven (q : ℚ) : ℤ :=
  let f := ⌊q⌋
  let r := q - f
  if r < 1/2 then f
  else if 1/2 < r then f + 1
  else if f % 2 = 0 then f else f + 1

/-- `f"{change:+.2f}"`. -/
def formatTwoDec (q : ℚ) : String :=
  let sign := if q < 0 then "-" else "+"
  let n := (roundHalfEven (|q| * 100)).toNat
  let cents := n % 100
  sign ++ toString (n / 100) ++ "." ++ (if cents < 10 then "0" else "") ++ toString cents

/-- `self.change_range` from `BaseParser.__init__`. -/
def change_range : ℚ × ℚ := (-1000, 1000)

/-- `BaseParser.clean_change_text`. -/
def clean_change_text (text : String) : ℚ × String :=
  if text = "" ∨ pyStrip text ∈ invalid_values then (0, "0.00%")
  else
    let t := pyStrip text
    let change : ℚ :=
      match matchSigned t.data with
      | some l =>
        let c := parseSigned l
        if change_range.1 ≤ c ∧ c ≤ change_range.2 then c else 0
      | none => 0
    let percent : String :=
      match matchPercent t.data with
      | some l => String.mk l ++ "%"
      | none => if change ≠ 0 then formatTwoDec change ++ "%" else "0.00%"
    (change, percent)

/-- `BaseParser.clean_volume_text`. -/
def clean_volume_text (text : String) : Option String :=
  if text = "" ∨ pyStrip text ∈ invalid_values then none
  else if pyStrip text = "" then none
  else some (pyStrip text)

/-- The `symbol_mapping` table of `BaseParser.standardize_symbol`. -/
def symbol_mapping : List (String × String) :=
  [("Au99.99", "AU9999"), ("Au(T+D)", "AUTD"), ("mAu(T+D)", "MAUTD"),
   ("Au99.95", "AU9995"), ("Au100g", "AU100G"), ("黄金T+D", "GOLD_TD"),
   ("现货黄金", "SPOT_GOLD"), ("黄金9999", "GOLD_9999"),
   ("纸黄金(人民币)", "PAPER_GOLD_CNY"), ("纸黄金(美元)", "PAPER_GOLD_USD"),
   ("XAUUSD", "XAUUSD"), ("沪金主力", "SHFE_GOLD_MAIN")]

/-- `BaseParser.standardize_symbol`. -/
def standardize_symbol (symbol : String) : String :=
  if symbol = "" then ""
  else
    let s := pyStrip symbol
    ((symbol_mapping.find? (fun e => e.1 = s)).map Prod.snd).getD s

/-- `BaseParser.format_timestamp`; `parseIso` stands for the external
`dateutil` parser composed with `isoformat()` (`none` on raise) and `nowIso`
for `datetime.now().isoformat()`. -/
def format_timestamp (nowIso : String) (parseIso : String → Option String)
    (timestamp : Option String) : String :=
  match timestamp with
  | some s => if s ≠ "" then ((parseIso s).getD nowIso) else nowIso
  | none => nowIso

/-- `BaseParser.validate_data`. -/
def validate_data (d : GoldPriceData) : Bool :=
  if d.source = "" ∨ d.symbol = "" then false
  else if d.price ≤ 0 ∨ ¬ (price_range.1 ≤ d.price ∧ d.price ≤ price_range.2) then false
  else if d.timestamp = "" then false
  else if ¬ (d.currency ∈ ["CNY", "USD", "EUR", "JPY"]) then false
  else true

/-- Arguments of `BaseParser.create_gold_data`: `price` after `str(...)`,
`change` either a string or an already-numeric value, and the read `kwargs`
(`volume` defaults to `''`, the rest to `None`). -/
structure CreateArgs where
  symbol : String
  price : String
  change : String ⊕ ℚ
  change_percent : String
  currency : String
  timestamp : Option String
  volume : String
  high : Option String
  low : Option String
  open_price : Option String
  buy_price : Option String
  sell_price : Option String
  deriving Repr

/-- `self.clean_price_text(str(kwargs.get(k, 0))) if kwargs.get(k) else None`
(an empty string is falsy). -/
def optPriceField : Option String → Option ℚ
  | some s => if s ≠ "" then some (clean_price_text s) else none
  | none => none

/-- `BaseParser.create_gold_data` for a parser named `name`. -/
def create_gold_data (name : String) (nowIso : String)
    (parseIso : String → Option String) (a : CreateArgs) : Option GoldPriceData :=
  let cp := clean_price_text a.price
  let cc : ℚ × String :=
    match a.change with
    | .inl s => clean_change_text s
    | .inr q => (q, a.change_percent)
  let d : GoldPriceData :=
    { source := name.toLower
      symbol := standardize_symbol a.symbol
      price := cp
      change := cc.1
      change_percent := cc.2
      timestamp := format_timestamp nowIso parseIso a.timestamp
      currency := a.currency
      volume := clean_volume_text a.volume
      high := optPriceField a.high
      low := optPriceField a.low
      open_price := optPriceField a.open_price
      buy_price := optPriceField a.buy_price
      sell_price := optPriceField a.sell_price }
  if validate_data d then some d else none

/-! ## parsers/cngold_parser.py and parsers/sina_parser.py:
`_deduplicate_and_sort` / `_get_source_priority`

The two parsers share the dedup/sort routine verbatim and differ only in
their `_get_source_priority` test strings and `product_mapping` tables. -/

/-- `p` is a prefix of `l`. -/
def startsWithChars : List Char → List Char → Bool
  | _, [] => true
  | [], _ :: _ => false
  | c :: t, p :: q => c = p && startsWithChars t q

/-- `p` occurs as a contiguous run inside `l`. -/
def containsSub (l p : List Char) : Bool :=
  match l with
  | [] => p.isEmpty
  | _ :: t => startsWithChars l p || containsSub t p

/-- Python substring containment `pat in s`. -/
def hasSubstr (s pat : String) : Bool := containsSub s.data pat.data

/-- `CngoldParser._get_source_priority`. -/
def cngold_get_source_priority (source : String) : ℤ :=
  if hasSubstr source "ticker" then 1
  else if hasSubstr source "table_0" then 2
  else if hasSubstr source "table" then 3
  else 99

/-- `SinaParser._get_source_priority`. -/
def sina_get_source_priority (source : String) : ℤ :=
  if hasSubstr source "quote" then 1
  else if hasSubstr source "table_0" then 2
  else if hasSubstr source "table" then 3
  else 99

/-- The `priority` column of `CngoldParser.product_mapping`. -/
def cngold_product_mapping : List (String × ℤ) :=
  [("黄金T+D", 1), ("现货黄金", 2), ("黄金9999", 3), ("纸黄金(人民币)", 4),
   ("纸黄金(美元)", 5), ("白银T+D", 6), ("现货白银", 7)]

/-- The `priority` column of `SinaParser.product_mapping`. -/
def sina_product_mapping : List (String × ℤ) :=
  [("XAUUSD", 1), ("沪金主力", 2), ("黄金T+D", 3), ("XAGUSD", 4),
   ("沪银主力", 5), ("白银T+D", 6)]

/-- `self.product_mapping.get(symbol, {"priority": 99})["priority"]`. -/
def productPriority (mapping : List (String × ℤ)) (symbol : String) : ℤ :=
  ((mapping.find? (fun e => e.1 = symbol)).map Prod.snd).getD 99

/-- The keys of `grouped_data` in insertion order: each symbol of the input
at its first occurrence. -/
def symbolsFirstOccur (l : List GoldPriceData) : List String :=
  l.foldl (fun acc r => if r.symbol ∈ acc then acc else acc ++ [r.symbol]) []

/-- `min(items, key=...)`: the first element attaining the least key. -/
def argminKey (key : GoldPriceData → ℤ) : GoldPriceData → List GoldPriceData → GoldPriceData
  | a, [] => a
  | a, b :: t => if key b < key a then argminKey key b t else argminKey key a t

/-- The record kept for one symbol group (`items[0]` when the group is a
singleton, else the `min` by source priority — the same value either way). -/
def pickBest (srcPrio : String → ℤ) : List GoldPriceData → Option GoldPriceData
  | [] => none
  | a :: t => some (argminKey (fun x => srcPrio x.source) a t)

/-- Stable insertion of a later-arriving element after all elements of
lesser-or-equal key (the placement `list.sort` gives it). -/
def insertStable (key : GoldPriceData → ℤ) (a : GoldPriceData) :
    List GoldPriceData → List GoldPriceData
  | [] => [a]
  | b :: t => if key b ≤ key a then b :: insertStable key a t else a :: b :: t

/-- `results.sort(key=...)` (Python's sort is stable). -/
def stableSortByKey (key : GoldPriceData → ℤ) (l : List GoldPriceData) :
    List GoldPriceData :=
  l.foldl (fun acc a => insertStable key a acc) []

/-- `_deduplicate_and_sort`, shared by both parsers: group by symbol in
first-occurrence order, keep the best record of each group, then sort by
product priority. -/
def deduplicate_and_sort (srcPrio : String → ℤ) (prodPrio : String → ℤ)
    (l : List GoldPriceData) : List GoldPriceData :=
  stableSortByKey (fun x => prodPrio x.symbol)
    ((symbolsFirstOccur l).filterMap
      (fun s => pickBest srcPrio (l.filter (fun r => r.symbol = s))))

/-- `CngoldParser._deduplicate_and_sort`. -/
def cngold_deduplicate_and_sort (l : List GoldPriceData) : List GoldPriceData :=
  deduplicate_and_sort cngold_get_source_priority (productPriority cngold_product_mapping) l

/-- `SinaParser._deduplicate_and_sort`. -/
def sina_deduplicate_and_sort (l : List GoldPriceData) : List GoldPriceData :=
  deduplicate_and_sort sina_get_source_priority (productPriority sina_product_mapping) l

/-! ## Theorems -/

/-! ### C1: preferred-source selection -/

/-- C1 — counterexample.  The claim says `get_preferred_source` returns
SCRAPER only if the API status is FAILED, for every reachable state.  But in
the reachable state after a single `record_failure(API)` (API DEGRADED,
SCRAPER UNKNOWN) the code already returns SCRAPER. -/
theorem preferred_source_claim_counterexample :
    get_preferred_source (runEvents [.failure .api]) = .scraper ∧
    (runEvents [.failure .api]).status .api ≠ .failed := by
  decide

/-- C1 — amended.  For every state, `get_preferred_source` returns SCRAPER
iff the API status is DEGRADED or FAILED (not HEALTHY/UNKNOWN) while the
SCRAPER status is HEALTHY or UNKNOWN; in every other state (including both
sources unavailable) it returns API. -/
theorem preferred_source_iff (m : FallbackManager) :
    get_preferred_source m = .scraper ↔
      ((m.apiStatus = .degraded ∨ m.apiStatus = .failed) ∧
        (m.scraperStatus = .healthy ∨ m.scraperStatus = .unknown)) := by
  cases m with
  | mk a s fa fs la ls => cases a <;> cases s <;> simp [get_preferred_source]

/-! ### C2: failure-threshold state machine -/

theorem record_failure_failures (m : FallbackManager) (t : DataSourceType) :
    (record_failure m t).failures t = m.failures t + 1 := by
  cases t <;> simp [record_failure, FallbackManager.failures]

theorem record_failure_status (m : FallbackManager) (t : DataSourceType) :
    (record_failure m t).status t =
      if failure_threshold t ≤ m.failures t + 1 then .failed else .degraded := by
  cases t <;> simp [record_failure, FallbackManager.failures, FallbackManager.status]

theorem iterate_record_failure_failures (m : FallbackManager) (t : DataSourceType) :
    ∀ k, ((fun s => record_failure s t)^[k] m).failures t = m.failures t + k := by
  intro k
  induction k with
  | zero => simp
  | succ j ih =>
    rw [Function.iterate_succ_apply', record_failure_failures, ih]
    omega

/-- C2 — confirmed.  Per source (thresholds 3 for API, 5 for SCRAPER),
starting from failure count 0: after `k` consecutive `record_failure` calls
with `1 ≤ k <` threshold the status is DEGRADED, after exactly threshold
calls it is FAILED, and one `record_success` from any state whatsoever makes
the status HEALTHY and the counter 0. -/
theorem failure_threshold_state_machine (m : FallbackManager) (t : DataSourceType)
    (k : Nat) (h0 : m.failures t = 0) (hk : 1 ≤ k) :
    failure_threshold .api = 3 ∧ failure_threshold .scraper = 5 ∧
    (k < failure_threshold t →
      ((fun s => record_failure s t)^[k] m).status t = .degraded) ∧
    (k = failure_threshold t →
      ((fun s => record_failure s t)^[k] m).status t = .failed) ∧
    (∀ (m' : FallbackManager) (now : ℚ),
      (record_success m' t now).status t = .healthy ∧
      (record_success m' t now).failures t = 0) := by
  obtain ⟨j, rfl⟩ : ∃ j, k = j + 1 := ⟨k - 1, by omega⟩
  have hstat : ((fun s => record_failure s t)^[j + 1] m).status t =
      if failure_threshold t ≤ j + 1 then .failed else .degraded := by
    rw [Function.iterate_succ_apply', record_failure_status,
      iterate_record_failure_failures, h0]
    simp [Nat.zero_add]
  refine ⟨rfl, rfl, ?_, ?_, ?_⟩
  · intro hlt
    rw [hstat, if_neg (by omega)]
  · intro heq
    rw [hstat, if_pos (by omega)]
  · intro m' now
    cases t <;>
      simp [record_success, FallbackManager.status, FallbackManager.failures]

/-- Witness for C2 at a concrete input: from the initial state, three
consecutive API failures yield status FAILED. -/
theorem failure_threshold_state_machine_witness :
    initFallbackManager.failures .api = 0 ∧ 1 ≤ 3 ∧
    ((fun s => record_failure s .api)^[3] initFallbackManager).status .api = .failed :=
  ⟨by decide, by decide,
    (failure_threshold_state_machine initFallbackManager .api 3 (by decide)
      (by decide)).2.2.2.1 (by decide)⟩

/-! ### C3: coordinator fallback path -/

/-- C3 — counterexample.  In the reachable state where both sources are
FAILED (3 API failures, 5 scraper failures), the preferred source is API;
when the API fetcher fails, `should_fallback` is true and a scraper fetcher
is available, yet the scraper is **not** invoked: the call returns
`(None, "none", False)` having only recorded the API failure (because
`get_fallback_source` refuses a FAILED scraper). -/
theorem fetch_fallback_claim_counterexample :
    runEvents (List.replicate 3 (.failure .api) ++ List.replicate 5 (.failure .scraper)) =
      ⟨.failed, .failed, 3, 5, none, none⟩ ∧
    get_preferred_source ⟨.failed, .failed, 3, 5, none, none⟩ = .api ∧
    should_fallback (record_failure ⟨.failed, .failed, 3, 5, none, none⟩ .api) .api = true ∧
    fetch_data_with_fallback 0 ⟨.failed, .failed, 3, 5, none, none⟩
        (some (.error "api down")) (some (.ok "payload")) =
      ((none, "none", false), record_failure ⟨.failed, .failed, 3, 5, none, none⟩ .api) := by
  refine ⟨by decide, by decide, by decide, ?_⟩
  rfl

/-- C3 — amended.  When the preferred source is API and the API fetcher
fails, the failure is recorded for API; then, whenever `should_fallback` is
true **and `get_fallback_source` still offers the scraper (its status is not
FAILED)** and a scraper fetcher is available, the scraper fetcher is
invoked: on its success a success is recorded for SCRAPER and the call
returns `(data, "scraper", True)`, and on its failure a failure is recorded
for SCRAPER and the call returns `(None, "none", True)`. -/
theorem fetch_fallback_behavior (now : ℚ) (m : FallbackManager) (e : String)
    (sf : Option (Except String String))
    (hpref : get_preferred_source m = .api)
    (hsf : should_fallback (record_failure m .api) .api = true)
    (hfb : get_fallback_source (record_failure m .api) .api = some .scraper) :
    (∀ d, sf = some (.ok d) →
      fetch_data_with_fallback now m (some (.error e)) sf =
        ((some d, "scraper", true),
          record_success (record_failure m .api) .scraper now)) ∧
    (∀ e2, sf = some (.error e2) →
      fetch_data_with_fallback now m (some (.error e)) sf =
        ((none, "none", true), record_failure (record_failure m .api) .scraper)) := by
  constructor
  · rintro d rfl
    simp [fetch_data_with_fallback, hpref, hsf, hfb]
  · rintro e2 rfl
    simp [fetch_data_with_fallback, hpref, hsf, hfb]

/-- Witness for C3 (amended) at a concrete input: API UNKNOWN with two prior
failures, scraper UNKNOWN; the API fetch fails (count reaches 3, FAILED), the
fallback fires and the scraper's success is returned as
`(data, "scraper", True)`. -/
theorem fetch_fallback_behavior_witness :
    get_preferred_source ⟨.unknown, .unknown, 2, 0, none, none⟩ = .api ∧
    should_fallback (record_failure ⟨.unknown, .unknown, 2, 0, none, none⟩ .api) .api = true ∧
    get_fallback_source (record_failure ⟨.unknown, .unknown, 2, 0, none, none⟩ .api) .api =
      some .scraper ∧
    fetch_data_with_fallback 0 ⟨.unknown, .unknown, 2, 0, none, none⟩
        (some (.error "boom")) (some (.ok "d")) =
      ((some "d", "scraper", true),
        record_success (record_failure ⟨.unknown, .unknown, 2, 0, none, none⟩ .api)
          .scraper 0) :=
  ⟨by decide, by decide, by decide,
    (fetch_fallback_behavior 0 ⟨.unknown, .unknown, 2, 0, none, none⟩ "boom"
      (some (.ok "d")) (by decide) (by decide) (by decide)).1 "d" rfl⟩

/-! ### C4: validity invariant -/

/-- C4 — confirmed.  For every payload and clock, a `ValidationResult`
returned by `validate_gold_data` has `is_valid = true` only if its issues
list is empty and its score is at least 60. -/
theorem is_valid_only_if (now : ℚ) (p : GoldPayload)
    (h : (validate_gold_data now p).is_valid = true) :
    (validate_gold_data now p).issues = 0 ∧ (60 : ℚ) ≤ (validate_gold_data now p).score := by
  simp only [validate_gold_data] at h ⊢
  rw [Bool.and_eq_true, beq_iff_eq, decide_eq_true_eq] at h
  exact h

/-- Witness for C4 at a concrete input: a fully valid payload. -/
theorem is_valid_only_if_witness :
    (validate_gold_data 0
      ⟨some "success", some (some 0), true,
        some [⟨some "XAUUSD", some (some 1900), true⟩]⟩).is_valid = true ∧
    (validate_gold_data 0
      ⟨some "success", some (some 0), true,
        some [⟨some "XAUUSD", some (some 1900), true⟩]⟩).issues = 0 :=
  ⟨by
    norm_num +decide [validate_gold_data, validate_scores, validate_structure,
      validate_content, validate_item, validate_timeliness, validate_consistency,
      itemPrices, min_def, List.filter],
    (is_valid_only_if 0
      ⟨some "success", some (some 0), true,
        some [⟨some "XAUUSD", some (some 1900), true⟩]⟩ (by
          norm_num +decide [validate_gold_data, validate_scores, validate_structure,
            validate_content, validate_item, validate_timeliness, validate_consistency,
            itemPrices, min_def, List.filter])).1⟩

/-! ### C5: score combination -/

theorem validate_structure_bounds (p : GoldPayload) :
    70 ≤ (validate_structure p).1 ∧ (validate_structure p).1 ≤ 100 := by
  unfold validate_structure
  cases p.status <;> dsimp only <;> split_ifs <;> norm_num

theorem validate_content_bounds (items : List ValItem) :
    50 ≤ (validate_content items).1 ∧ (validate_content items).1 ≤ 100 := by
  unfold validate_content
  dsimp only
  split_ifs <;> first | (exfalso; omega) | norm_num

theorem validate_timeliness_bounds (now : ℚ) (p : GoldPayload) :
    70 ≤ (validate_timeliness now p).1 ∧ (validate_timeliness now p).1 ≤ 100 := by
  unfold validate_timeliness
  rcases p.timestamp with _ | ⟨_ | t⟩
  · norm_num
  · norm_num
  · dsimp only
    split
    · rename_i hage
      constructor
      · have : min (30 : ℚ) (now - t - 60) ≤ 30 := min_le_left _ _
        simp only [Prod.fst]
        linarith
      · have : (0 : ℚ) ≤ min 30 (now - t - 60) :=
          le_min (by norm_num) (by linarith)
        simp only [Prod.fst]
        linarith
    · norm_num

theorem validate_consistency_bounds (p : GoldPayload) :
    85 ≤ (validate_consistency p).1 ∧ (validate_consistency p).1 ≤ 100 := by
  unfold validate_consistency
  rcases p.items with _ | items
  · norm_num
  · dsimp only
    split
    · norm_num
    · split
      · split <;> norm_num
      · norm_num

/-- C5 — counterexample.  For the payload `{"status": "success"}` with a
`source` key but no `items` key, the code subtracts a flat 30 from the
running minimum instead of taking a minimum over four checks: the final
score is 65 while the minimum of the four per-check scores is 70. -/
theorem final_score_claim_counterexample :
    (validate_gold_data 0 ⟨some "success", none, true, none⟩).score = 65 ∧
    spec_min_score 0 ⟨some "success", none, true, none⟩ = 70 := by
  constructor <;>
    norm_num [validate_gold_data, validate_scores, spec_min_score, validate_structure,
      validate_content, validate_timeliness, validate_consistency, min_def]

/-- C5 — amended.  For every payload **that contains the `items` key**, the
final score of `validate_gold_data` equals the minimum of the four per-check
scores (structure, content, timeliness, consistency), each of which starts
at 100 and is only decreased (is at most 100), and the final score lies in
[0, 100].  (When `items` is absent the code instead subtracts a flat 30
from the minimum of the other three checks.) -/
theorem final_score_min_of_checks (now : ℚ) (p : GoldPayload) (items : List ValItem)
    (h : p.items = some items) :
    (validate_gold_data now p).score =
      min (min (min (validate_structure p).1 (validate_content items).1)
        (validate_timeliness now p).1) (validate_consistency p).1 ∧
    (validate_structure p).1 ≤ 100 ∧ (validate_content items).1 ≤ 100 ∧
    (validate_timeliness now p).1 ≤ 100 ∧ (validate_consistency p).1 ≤ 100 ∧
    0 ≤ (validate_gold_data now p).score ∧ (validate_gold_data now p).score ≤ 100 := by
  have hs := validate_structure_bounds p
  have hc := validate_content_bounds items
  have ht := validate_timeliness_bounds now p
  have hcs := validate_consistency_bounds p
  have hmain : (validate_gold_data now p).score =
      min (min (min (validate_structure p).1 (validate_content items).1)
        (validate_timeliness now p).1) (validate_consistency p).1 := by
    simp only [validate_gold_data, validate_scores, h]
    rw [min_eq_right hs.2]
  refine ⟨hmain, hs.2, hc.2, ht.2, hcs.2, ?_, ?_⟩
  · rw [hmain]
    have h1 : (0 : ℚ) ≤ (validate_structure p).1 := by linarith [hs.1]
    have h2 : (0 : ℚ) ≤ (validate_content items).1 := by linarith [hc.1]
    have h3 : (0 : ℚ) ≤ (validate_timeliness now p).1 := by linarith [ht.1]
    have h4 : (0 : ℚ) ≤ (validate_consistency p).1 := by linarith [hcs.1]
    exact le_min (le_min (le_min h1 h2) h3) h4
  · rw [hmain]
    calc min (min (min (validate_structure p).1 (validate_content items).1)
          (validate_timeliness now p).1) (validate_consistency p).1
        ≤ min (min (validate_structure p).1 (validate_content items).1)
          (validate_timeliness now p).1 := min_le_left _ _
      _ ≤ min (validate_structure p).1 (validate_content items).1 := min_le_left _ _
      _ ≤ (validate_structure p).1 := min_le_left _ _
      _ ≤ 100 := hs.2

/-- Witness for C5 (amended) at a concrete input. -/
theorem final_score_min_of_checks_witness :
    (⟨some "success", some (some 0), true,
      some [⟨some "XAUUSD", some (some 1900), true⟩]⟩ : GoldPayload).items =
        some [⟨some "XAUUSD", some (some 1900), true⟩] ∧
    (validate_gold_data 0
      ⟨some "success", some (some 0), true,
        some [⟨some "XAUUSD", some (some 1900), true⟩]⟩).score =
      min (min (min
        (validate_structure ⟨some "success", some (some 0), true,
          some [⟨some "XAUUSD", some (some 1900), true⟩]⟩).1
        (validate_content [⟨some "XAUUSD", some (some 1900), true⟩]).1)
        (validate_timeliness 0 ⟨some "success", some (some 0), true,
          some [⟨some "XAUUSD", some (some 1900), true⟩]⟩).1)
        (validate_consistency ⟨some "success", some (some 0), true,
          some [⟨some "XAUUSD", some (some 1900), true⟩]⟩).1 :=
  ⟨rfl,
    (final_score_min_of_checks 0
      ⟨some "success", some (some 0), true,
        some [⟨some "XAUUSD", some (some 1900), true⟩]⟩
      [⟨some "XAUUSD", some (some 1900), true⟩] rfl).1⟩

/-! ### C6 / C10: cross-source comparison -/

theorem mem_commonSymbols (a b : List (String × ℚ)) (s : String) :
    s ∈ commonSymbols a b ↔ s ∈ a.map Prod.fst ∧ s ∈ b.map Prod.fst := by
  simp only [commonSymbols, List.mem_filter, List.any_eq_true, List.mem_map,
    decide_eq_true_eq]

/-- C6 — confirmed.  On payloads sharing at least one symbol,
`compare_sources` computes `consistency_score = max(0, 100 − 10·avgDiff)`
over the common symbols; the score is antitone in the average difference,
equals 100 when all matched prices agree, and every common symbol whose
absolute price difference exceeds 5.0 is listed as a discrepancy. -/
theorem compare_consistency_score (now : ℚ) (a b : GoldPayload)
    (h : commonSymbols (extract_prices a) (extract_prices b) ≠ []) :
    ((compare_sources now a b).consistency_score =
      max 0 (100 - 10 * ((priceDiffs (extract_prices a) (extract_prices b)).sum /
        ((priceDiffs (extract_prices a) (extract_prices b)).length : ℚ)))) ∧
    ((∀ s ∈ commonSymbols (extract_prices a) (extract_prices b),
        lookupPrice (extract_prices a) s = lookupPrice (extract_prices b) s) →
      (compare_sources now a b).consistency_score = 100) ∧
    (∀ (a2 b2 : GoldPayload),
      commonSymbols (extract_prices a2) (extract_prices b2) ≠ [] →
      (priceDiffs (extract_prices a) (extract_prices b)).sum /
          ((priceDiffs (extract_prices a) (extract_prices b)).length : ℚ) ≤
        (priceDiffs (extract_prices a2) (extract_prices b2)).sum /
          ((priceDiffs (extract_prices a2) (extract_prices b2)).length : ℚ) →
      (compare_sources now a2 b2).consistency_score ≤
        (compare_sources now a b).consistency_score) ∧
    (∀ s ∈ commonSymbols (extract_prices a) (extract_prices b),
      5 < |lookupPrice (extract_prices a) s - lookupPrice (extract_prices b) s| →
      s ∈ (compare_sources now a b).price_discrepancies) := by
  have hformula : ∀ (x y : GoldPayload),
      commonSymbols (extract_prices x) (extract_prices y) ≠ [] →
      (compare_sources now x y).consistency_score =
        max 0 (100 - 10 * ((priceDiffs (extract_prices x) (extract_prices y)).sum /
          ((priceDiffs (extract_prices x) (extract_prices y)).length : ℚ))) := by
    intro x y hxy
    have hd : priceDiffs (extract_prices x) (extract_prices y) ≠ [] := by
      simp only [priceDiffs, ne_eq, List.map_eq_nil_iff]
      exact hxy
    simp only [compare_sources, if_pos hxy, if_pos hd]
    congr 1
    ring
  refine ⟨hformula a b h, ?_, ?_, ?_⟩
  · intro hall
    have hzero : (priceDiffs (extract_prices a) (extract_prices b)).sum = 0 := by
      apply List.sum_eq_zero
      intro x hx
      simp only [priceDiffs, List.mem_map] at hx
      obtain ⟨s, hs, rfl⟩ := hx
      rw [hall s hs, sub_self, abs_zero]
    rw [hformula a b h, hzero, zero_div, mul_zero, sub_zero]
    norm_num
  · intro a2 b2 h2 hle
    rw [hformula a b h, hformula a2 b2 h2]
    exact max_le_max (le_refl 0) (by linarith)
  · intro s hs habs
    simp only [compare_sources, List.mem_filter]
    exact ⟨hs, by simpa using habs⟩

/-- Witness for C6 at a concrete input: two payloads sharing "XAUUSD" with
prices 1900 and 1908 — the $8 gap is reported as a discrepancy. -/
theorem compare_consistency_score_witness :
    commonSymbols
      (extract_prices ⟨some "success", some (some 0), true,
        some [⟨some "XAUUSD", some (some 1900), true⟩]⟩)
      (extract_prices ⟨some "success", some (some 0), true,
        some [⟨some "XAUUSD", some (some 1908), true⟩]⟩) ≠ [] ∧
    "XAUUSD" ∈ (compare_sources 0
      ⟨some "success", some (some 0), true,
        some [⟨some "XAUUSD", some (some 1900), true⟩]⟩
      ⟨some "success", some (some 0), true,
        some [⟨some "XAUUSD", some (some 1908), true⟩]⟩).price_discrepancies :=
  ⟨by decide,
    (compare_consistency_score 0
      ⟨some "success", some (some 0), true,
        some [⟨some "XAUUSD", some (some 1900), true⟩]⟩
      ⟨some "success", some (some 0), true,
        some [⟨some "XAUUSD", some (some 1908), true⟩]⟩ (by decide)).2.2.2
      "XAUUSD" (by decide)
      (by norm_num +decide [lookupPrice, extract_prices, insertPrice])⟩

/-- C10 — confirmed.  When the two payloads share no symbol,
`compare_sources` leaves `consistency_score` at its initial 0.0 (even if
each payload is individually fully valid) and reports no price
discrepancies; in general a symbol appears as a price discrepancy only if it
occurs in both payloads. -/
theorem compare_disjoint_zero (now : ℚ) (a b : GoldPayload) :
    ((∀ s ∈ (extract_prices a).map Prod.fst, s ∉ (extract_prices b).map Prod.fst) →
      (compare_sources now a b).consistency_score = 0 ∧
      (compare_sources now a b).price_discrepancies = []) ∧
    (∀ s ∈ (compare_sources now a b).price_discrepancies,
      s ∈ (extract_prices a).map Prod.fst ∧ s ∈ (extract_prices b).map Prod.fst) := by
  constructor
  · intro hdisj
    have hcommon : commonSymbols (extract_prices a) (extract_prices b) = [] := by
      rcases hc : commonSymbols (extract_prices a) (extract_prices b) with _ | ⟨s, t⟩
      · rfl
      · exfalso
        have hmem : s ∈ commonSymbols (extract_prices a) (extract_prices b) := by
          rw [hc]; exact List.mem_cons_self s t
        rw [mem_commonSymbols] at hmem
        exact hdisj s hmem.1 hmem.2
    constructor
    · simp [compare_sources, hcommon]
    · simp [compare_sources, hcommon]
  · intro s hs
    have : s ∈ commonSymbols (extract_prices a) (extract_prices b) := by
      simp only [compare_sources, List.mem_filter] at hs
      exact hs.1
    exact (mem_commonSymbols _ _ s).mp this

/-- Witness for C10 at a concrete input: two individually fully valid
payloads with disjoint symbol sets compare to consistency 0 and no
discrepancies. -/
theorem compare_disjoint_zero_witness :
    (validate_gold_data 0 ⟨some "success", some (some 0), true,
      some [⟨some "XAUUSD", some (some 1900), true⟩]⟩).is_valid = true ∧
    (validate_gold_data 0 ⟨some "success", some (some 0), true,
      some [⟨some "AUTD", some (some 550), true⟩]⟩).is_valid = true ∧
    (compare_sources 0
      ⟨some "success", some (some 0), true,
        some [⟨some "XAUUSD", some (some 1900), true⟩]⟩
      ⟨some "success", some (some 0), true,
        some [⟨some "AUTD", some (some 550), true⟩]⟩).consistency_score = 0 ∧
    (compare_sources 0
      ⟨some "success", some (some 0), true,
        some [⟨some "XAUUSD", some (some 1900), true⟩]⟩
      ⟨some "success", some (some 0), true,
        some [⟨some "AUTD", some (some 550), true⟩]⟩).price_discrepancies = [] :=
  ⟨by
    norm_num +decide [validate_gold_data, validate_scores, validate_structure,
      validate_content, validate_item, validate_timeliness, validate_consistency,
      itemPrices, min_def, List.filter],
   by
    norm_num +decide [validate_gold_data, validate_scores, validate_structure,
      validate_content, validate_item, validate_timeliness, validate_consistency,
      itemPrices, min_def, List.filter],
   ((compare_disjoint_zero 0
      ⟨some "success", some (some 0), true,
        some [⟨some "XAUUSD", some (some 1900), true⟩]⟩
      ⟨some "success", some (some 0), true,
        some [⟨some "AUTD", some (some 550), true⟩]⟩).1 (by decide)).1,
   ((compare_disjoint_zero 0
      ⟨some "success", some (some 0), true,
        some [⟨some "XAUUSD", some (some 1900), true⟩]⟩
      ⟨some "success", some (some 0), true,
        some [⟨some "AUTD", some (some 550), true⟩]⟩).1 (by decide)).2⟩

/-! ### C7: plausible-band rejection -/

/-- C7 — confirmed.  Whenever the numeric token extracted by
`clean_price_text` lies outside the plausible band `(100, 10000)`, the
function returns 0.0 (never the out-of-band value); and `create_gold_data`
returns `None` for every input whose cleaned price is not strictly positive
and within the band (whatever the other fields are). -/
theorem clean_price_out_of_band :
    (∀ (text : String) (l : List Char),
      matchNumber (stripCurrency text) = some l →
      ¬ (price_range.1 ≤ parseFloat l ∧ parseFloat l ≤ price_range.2) →
      clean_price_text text = 0) ∧
    (∀ (name nowIso : String) (parseIso : String → Option String) (a : CreateArgs),
      ¬ (0 < clean_price_text a.price ∧ price_range.1 ≤ clean_price_text a.price ∧
          clean_price_text a.price ≤ price_range.2) →
      create_gold_data name nowIso parseIso a = none) := by
  constructor
  · intro text l hm hband
    by_cases h0 : text = "" ∨ pyStrip text ∈ invalid_values
    · simp [clean_price_text, h0]
    · simp [clean_price_text, h0, hm, hband]
  · intro name nowIso parseIso a hband
    unfold create_gold_data
    dsimp only
    rw [if_neg]
    intro hval
    rw [validate_data] at hval
    split_ifs at hval with h1 h2
    apply h2
    by_cases hp : clean_price_text a.price ≤ 0
    · exact Or.inl hp
    · refine Or.inr ?_
      intro hin
      exact hband ⟨by linarith [not_le.mp hp], hin.1, hin.2⟩

/-- Witness for C7 at concrete inputs: the out-of-band price text "99999"
cleans to 0 and the corresponding record is discarded. -/
theorem clean_price_out_of_band_witness :
    matchNumber (stripCurrency "99999") = some ['9', '9', '9', '9', '9'] ∧
    clean_price_text "99999" = 0 ∧
    create_gold_data "Cngold" "2024-01-01T00:00:00" (fun _ => none)
      ⟨"黄金T+D", "99999", Sum.inr 0, "0.00%", "CNY", none, "", none, none, none,
        none, none⟩ = none :=
  ⟨by decide,
   clean_price_out_of_band.1 "99999" ['9', '9', '9', '9', '9'] (by decide) (by
      norm_num [parseFloat,
        show (['9', '9', '9', '9', '9'].takeWhile Char.isDigit) = ['9', '9', '9', '9', '9']
          from by decide,
        show (['9', '9', '9', '9', '9'].dropWhile Char.isDigit) = ([] : List Char)
          from by decide,
        show digitsToNat ['9', '9', '9', '9', '9'] = 99999 from by decide,
        show digitsToNat [] = 0 from by decide, price_range]),
   clean_price_out_of_band.2 "Cngold" "2024-01-01T00:00:00" (fun _ => none)
     ⟨"黄金T+D", "99999", Sum.inr 0, "0.00%", "CNY", none, "", none, none, none,
       none, none⟩ (by
      norm_num [clean_price_text,
        show matchNumber (stripCurrency "99999") = some ['9', '9', '9', '9', '9']
          from by decide,
        parseFloat,
        show (['9', '9', '9', '9', '9'].takeWhile Char.isDigit) = ['9', '9', '9', '9', '9']
          from by decide,
        show (['9', '9', '9', '9', '9'].dropWhile Char.isDigit) = ([] : List Char)
          from by decide,
        show digitsToNat ['9', '9', '9', '9', '9'] = 99999 from by decide,
        show digitsToNat [] = 0 from by decide,
        show ("99999" = "") = False from by decide,
        show (pyStrip "99999" ∈ invalid_values) = False from by decide,
        price_range])⟩

/-! ### C8: deduplication and ranking -/

theorem argminKey_mem (key : GoldPriceData → ℤ) (a : GoldPriceData)
    (t : List GoldPriceData) : argminKey key a t ∈ a :: t := by
  induction t generalizing a with
  | nil => simp [argminKey]
  | cons b t ih =>
    rw [argminKey]
    split_ifs
    · exact List.mem_cons_of_mem a (ih b)
    · rcases List.mem_cons.mp (ih a) with h | h
      · rw [h]
        exact List.mem_cons_self a (b :: t)
      · exact List.mem_cons_of_mem a (List.mem_cons_of_mem b h)

theorem argminKey_le (key : GoldPriceData → ℤ) (a : GoldPriceData)
    (t : List GoldPriceData) : ∀ x ∈ a :: t, key (argminKey key a t) ≤ key x := by
  induction t generalizing a with
  | nil =>
    intro x hx
    rcases List.mem_cons.mp hx with rfl | h
    · simp [argminKey]
    · cases h
  | cons b t ih =>
    intro x hx
    rw [argminKey]
    split_ifs with hba
    · rcases List.mem_cons.mp hx with hxa | hx2
      · subst hxa
        exact le_trans (ih b b (List.mem_cons_self b t)) (le_of_lt hba)
      · exact ih b x hx2
    · rcases List.mem_cons.mp hx with hxa | hx2
      · subst hxa
        exact ih x x (List.mem_cons_self x t)
      · rcases List.mem_cons.mp hx2 with hxb | hx3
        · subst hxb
          exact le_trans (ih a a (List.mem_cons_self a t)) (not_lt.mp hba)
        · exact ih a x (List.mem_cons_of_mem a hx3)

theorem mem_foldl_symbols (l : List GoldPriceData) (acc : List String) (s : String) :
    s ∈ l.foldl (fun acc r => if r.symbol ∈ acc then acc else acc ++ [r.symbol]) acc ↔
      s ∈ acc ∨ s ∈ l.map (fun r => r.symbol) := by
  induction l generalizing acc with
  | nil => simp
  | cons r t ih =>
    simp only [List.foldl_cons, List.map_cons, List.mem_cons]
    rw [ih]
    have hstep : s ∈ (if r.symbol ∈ acc then acc else acc ++ [r.symbol]) ↔
        s ∈ acc ∨ s = r.symbol := by
      split_ifs with h
      · constructor
        · exact Or.inl
        · rintro (h1 | rfl)
          · exact h1
          · exact h
      · simp [List.mem_append]
    rw [hstep]
    tauto

theorem nodup_foldl_symbols (l : List GoldPriceData) (acc : List String)
    (h : acc.Nodup) :
    (l.foldl (fun acc r => if r.symbol ∈ acc then acc else acc ++ [r.symbol]) acc).Nodup := by
  induction l generalizing acc with
  | nil => exact h
  | cons r t ih =>
    rw [List.foldl_cons]
    apply ih
    split_ifs with hr
    · exact h
    · rw [List.nodup_append]
      refine ⟨h, List.nodup_singleton _, ?_⟩
      intro a ha hb
      rw [List.mem_singleton] at hb
      exact hr (hb ▸ ha)

theorem mem_symbolsFirstOccur (l : List GoldPriceData) (s : String) :
    s ∈ symbolsFirstOccur l ↔ s ∈ l.map (fun r => r.symbol) := by
  rw [symbolsFirstOccur, mem_foldl_symbols]
  simp

theorem nodup_symbolsFirstOccur (l : List GoldPriceData) :
    (symbolsFirstOccur l).Nodup :=
  nodup_foldl_symbols l [] List.nodup_nil

theorem pickBest_spec (srcPrio : String → ℤ) (items : List GoldPriceData)
    (h : items ≠ []) :
    ∃ r, pickBest srcPrio items = some r ∧ r ∈ items ∧
      ∀ x ∈ items, srcPrio r.source ≤ srcPrio x.source := by
  cases items with
  | nil => exact absurd rfl h
  | cons a t =>
    exact ⟨argminKey (fun x => srcPrio x.source) a t, rfl,
      argminKey_mem (fun x => srcPrio x.source) a t,
      fun x hx => argminKey_le (fun x => srcPrio x.source) a t x hx⟩

theorem count_filterMap_symbols (g : String → Option GoldPriceData)
    (hsym : ∀ s r, g s = some r → r.symbol = s) :
    ∀ (syms : List String), syms.Nodup → ∀ s ∈ syms, (g s).isSome →
      ((syms.filterMap g).filter (fun x => x.symbol = s)).length = 1 := by
  intro syms
  induction syms with
  | nil =>
    intro _ s hs
    cases hs
  | cons a t ih =>
    intro hnd s hs hsome
    have hnd2 := List.nodup_cons.mp hnd
    rcases List.mem_cons.mp hs with rfl | hst
    · obtain ⟨r, hr⟩ := Option.isSome_iff_exists.mp hsome
      rw [List.filterMap_cons, hr]
      have hrest : ((t.filterMap g).filter (fun x => x.symbol = s)).length = 0 := by
        rw [List.length_eq_zero]
        rw [List.filter_eq_nil_iff]
        intro x hx
        obtain ⟨s2, hs2, hgs2⟩ := List.mem_filterMap.mp hx
        have : x.symbol = s2 := hsym s2 x hgs2
        simp only [this, decide_eq_true_eq]
        intro heq
        exact hnd2.1 (heq ▸ hs2)
      rw [List.filter_cons]
      have : (decide (r.symbol = s)) = true := by
        rw [decide_eq_true_eq]
        exact hsym s r hr
      rw [this]
      simp [hrest]
    · have hlen := ih hnd2.2 s hst hsome
      rw [List.filterMap_cons]
      rcases hga : g a with _ | r
      · exact hlen
      · rw [List.filter_cons]
        have : (decide (r.symbol = s)) = false := by
          rw [decide_eq_false_iff_not]
          rw [hsym a r hga]
          intro heq
          exact hnd2.1 (heq ▸ hst)
        rw [this]
        exact hlen

theorem insertStable_perm (key : GoldPriceData → ℤ) (a : GoldPriceData)
    (l : List GoldPriceData) : (insertStable key a l).Perm (a :: l) := by
  induction l with
  | nil => exact List.Perm.refl _
  | cons b t ih =>
    rw [insertStable]
    split_ifs
    · exact ((ih.cons b).trans (List.Perm.swap a b t))
    · exact List.Perm.refl _

theorem stableSort_foldl_perm (key : GoldPriceData → ℤ) :
    ∀ (l acc : List GoldPriceData),
      (l.foldl (fun acc a => insertStable key a acc) acc).Perm (l ++ acc) := by
  intro l
  induction l with
  | nil => intro acc; simp
  | cons x t ih =>
    intro acc
    rw [List.foldl_cons]
    refine (ih (insertStable key x acc)).trans ?_
    refine (List.Perm.append_left t (insertStable_perm key x acc)).trans ?_
    exact List.perm_middle

theorem stableSortByKey_perm (key : GoldPriceData → ℤ) (l : List GoldPriceData) :
    (stableSortByKey key l).Perm l := by
  have := stableSort_foldl_perm key l []
  simpa [stableSortByKey] using this

theorem insertStable_sorted (key : GoldPriceData → ℤ) (a : GoldPriceData)
    (l : List GoldPriceData) (h : l.Pairwise (fun x y => key x ≤ key y)) :
    (insertStable key a l).Pairwise (fun x y => key x ≤ key y) := by
  induction l with
  | nil => simp [insertStable]
  | cons b t ih =>
    rw [insertStable]
    obtain ⟨hb, ht⟩ := List.pairwise_cons.mp h
    split_ifs with hba
    · refine List.pairwise_cons.mpr ⟨?_, ih ht⟩
      intro x hx
      have hxmem : x ∈ a :: t := (insertStable_perm key a t).mem_iff.mp hx
      rcases List.mem_cons.mp hxmem with rfl | hxt
      · exact hba
      · exact hb x hxt
    · refine List.pairwise_cons.mpr ⟨?_, h⟩
      intro x hx
      rcases List.mem_cons.mp hx with rfl | hxt
      · exact le_of_lt (not_le.mp hba)
      · exact le_trans (le_of_lt (not_le.mp hba)) (hb x hxt)

theorem stableSortByKey_sorted (key : GoldPriceData → ℤ) (l : List GoldPriceData) :
    (stableSortByKey key l).Pairwise (fun x y => key x ≤ key y) := by
  rw [stableSortByKey]
  have : ∀ (l acc : List GoldPriceData),
      acc.Pairwise (fun x y => key x ≤ key y) →
      (l.foldl (fun acc a => insertStable key a acc) acc).Pairwise
        (fun x y => key x ≤ key y) := by
    intro l
    induction l with
    | nil => intro acc h; exact h
    | cons x t ih =>
      intro acc h
      rw [List.foldl_cons]
      exact ih (insertStable key x acc) (insertStable_sorted key x acc h)
  exact this l [] List.Pairwise.nil

theorem dedup_spec (srcPrio prodPrio : String → ℤ) (l : List GoldPriceData)
    (s : String) (hs : s ∈ l.map (fun r => r.symbol)) :
    ((deduplicate_and_sort srcPrio prodPrio l).filter (fun r => r.symbol = s)).length = 1 ∧
    (∀ r ∈ deduplicate_and_sort srcPrio prodPrio l, r.symbol = s →
      r ∈ l ∧ ∀ x ∈ l, x.symbol = s → srcPrio r.source ≤ srcPrio x.source) ∧
    (deduplicate_and_sort srcPrio prodPrio l).Pairwise
      (fun x y => prodPrio x.symbol ≤ prodPrio y.symbol) := by
  have hpick : ∀ (s2 : String) (r : GoldPriceData),
      pickBest srcPrio (l.filter (fun x => x.symbol = s2)) = some r →
      r ∈ l.filter (fun x => x.symbol = s2) ∧
        ∀ x ∈ l.filter (fun x => x.symbol = s2),
          srcPrio r.source ≤ srcPrio x.source := by
    intro s2 r hr
    rcases hfil : l.filter (fun x => x.symbol = s2) with _ | ⟨a, t⟩
    · rw [hfil] at hr
      simp [pickBest] at hr
    · rw [hfil] at hr
      simp only [pickBest, Option.some.injEq] at hr
      subst hr
      constructor
      · rw [hfil]
        exact argminKey_mem _ a t
      · rw [hfil]
        exact fun x hx => argminKey_le (fun y => srcPrio y.source) a t x hx
  have hsym : ∀ (s2 : String) (r : GoldPriceData),
      pickBest srcPrio (l.filter (fun x => x.symbol = s2)) = some r →
      r.symbol = s2 := by
    intro s2 r hr
    have := (hpick s2 r hr).1
    have := List.mem_filter.mp this
    simpa using this.2
  have hfil_ne : l.filter (fun x => x.symbol = s) ≠ [] := by
    obtain ⟨r, hrl, hrs⟩ := List.mem_map.mp hs
    intro hnil
    have : r ∈ l.filter (fun x => x.symbol = s) :=
      List.mem_filter.mpr ⟨hrl, by simp [hrs]⟩
    rw [hnil] at this
    cases this
  have hsome : (pickBest srcPrio (l.filter (fun x => x.symbol = s))).isSome := by
    rcases hfil : l.filter (fun x => x.symbol = s) with _ | ⟨a, t⟩
    · exact absurd hfil hfil_ne
    · simp [pickBest, hfil]
  have hdef : deduplicate_and_sort srcPrio prodPrio l =
      stableSortByKey (fun x => prodPrio x.symbol)
        ((symbolsFirstOccur l).filterMap
          (fun s2 => pickBest srcPrio (l.filter (fun r => r.symbol = s2)))) := rfl
  have hperm := stableSortByKey_perm (fun x => prodPrio x.symbol)
    ((symbolsFirstOccur l).filterMap
      (fun s2 => pickBest srcPrio (l.filter (fun r => r.symbol = s2))))
  refine ⟨?_, ?_, ?_⟩
  · rw [hdef, (hperm.filter _).length_eq]
    exact count_filterMap_symbols _ hsym (symbolsFirstOccur l)
      (nodup_symbolsFirstOccur l) s ((mem_symbolsFirstOccur l s).mpr hs) hsome
  · intro r hr hrs
    rw [hdef] at hr
    have hrcore := hperm.mem_iff.mp hr
    obtain ⟨s2, _, hg⟩ := List.mem_filterMap.mp hrcore
    have hs2 : s2 = s := by
      rw [← hsym s2 r hg]
      exact hrs
    subst hs2
    obtain ⟨hmem, hmin⟩ := hpick s2 r hg
    have hmem2 := List.mem_filter.mp hmem
    refine ⟨hmem2.1, ?_⟩
    intro x hx hxs
    exact hmin x (List.mem_filter.mpr ⟨hx, by simp [hxs, hrs]⟩)
  · rw [hdef]
    exact stableSortByKey_sorted _ _

/-- C8 — confirmed.  For both parsers and every input list: each symbol of
the input appears exactly once in the deduplicated output; the record kept
for a symbol is one of that symbol's candidates and carries the least
source-priority value among them (the fixed region order ticker/quote <
first data table < later data tables < unknown, encoded by
`_get_source_priority`) — for every input order, since the list is
universally quantified; and the output is sorted by the symbol's configured
product-priority rank. -/
theorem dedup_keeps_highest_priority (l : List GoldPriceData) (s : String)
    (hs : s ∈ l.map (fun r => r.symbol)) :
    (((cngold_deduplicate_and_sort l).filter (fun r => r.symbol = s)).length = 1 ∧
      (∀ r ∈ cngold_deduplicate_and_sort l, r.symbol = s →
        r ∈ l ∧ ∀ x ∈ l, x.symbol = s →
          cngold_get_source_priority r.source ≤ cngold_get_source_priority x.source) ∧
      (cngold_deduplicate_and_sort l).Pairwise
        (fun x y => productPriority cngold_product_mapping x.symbol ≤
          productPriority cngold_product_mapping y.symbol)) ∧
    (((sina_deduplicate_and_sort l).filter (fun r => r.symbol = s)).length = 1 ∧
      (∀ r ∈ sina_deduplicate_and_sort l, r.symbol = s →
        r ∈ l ∧ ∀ x ∈ l, x.symbol = s →
          sina_get_source_priority r.source ≤ sina_get_source_priority x.source) ∧
      (sina_deduplicate_and_sort l).Pairwise
        (fun x y => productPriority sina_product_mapping x.symbol ≤
          productPriority sina_product_mapping y.symbol)) :=
  ⟨dedup_spec cngold_get_source_priority (productPriority cngold_product_mapping) l s hs,
   dedup_spec sina_get_source_priority (productPriority sina_product_mapping) l s hs⟩

/-- Witness for C8 at a concrete input: a cngold page yielding 现货黄金 from
both a later table and the live ticker (in that order) keeps exactly one
现货黄金 record, and the region priorities order as the claim's tie-break
says. -/
theorem dedup_keeps_highest_priority_witness :
    "现货黄金" ∈ (([⟨"cngold_table_1", "现货黄金", 1900, 0, "0.00%", "t", "USD",
        none, none, none, none, none, none⟩,
      ⟨"cngold_ticker", "现货黄金", 1905, 0, "0.00%", "t", "USD",
        none, none, none, none, none, none⟩,
      ⟨"cngold_table_0", "黄金T+D", 500, 0, "0.00%", "t", "CNY",
        none, none, none, none, none, none⟩] : List GoldPriceData).map
        (fun r => r.symbol)) ∧
    cngold_get_source_priority "cngold_ticker" = 1 ∧
    cngold_get_source_priority "cngold_table_0" = 2 ∧
    cngold_get_source_priority "cngold_table_1" = 3 ∧
    cngold_get_source_priority "cngold_other" = 99 ∧
    ((cngold_deduplicate_and_sort
      [⟨"cngold_table_1", "现货黄金", 1900, 0, "0.00%", "t", "USD",
        none, none, none, none, none, none⟩,
      ⟨"cngold_ticker", "现货黄金", 1905, 0, "0.00%", "t", "USD",
        none, none, none, none, none, none⟩,
      ⟨"cngold_table_0", "黄金T+D", 500, 0, "0.00%", "t", "CNY",
        none, none, none, none, none, none⟩]).filter
        (fun r => r.symbol = "现货黄金")).length = 1 :=
  ⟨by decide, by decide, by decide, by decide, by decide,
    (dedup_keeps_highest_priority
      [⟨"cngold_table_1", "现货黄金", 1900, 0, "0.00%", "t", "USD",
        none, none, none, none, none, none⟩,
      ⟨"cngold_ticker", "现货黄金", 1905, 0, "0.00%", "t", "USD",
        none, none, none, none, none, none⟩,
      ⟨"cngold_table_0", "黄金T+D", 500, 0, "0.00%", "t", "CNY",
        none, none, none, none, none, none⟩] "现货黄金" (by decide)).1.1⟩

end GoldScraper
